import Mathlib

/-!
Verification of the core behaviors of the `dxrs` command-line client:
path resolution (`resolve_path`, `parse_project_path` from `src/lib.rs`),
the chunked upload pipeline (`upload_local_file` from `src/lib.rs`),
cursor-based paginated search (`find_data` from `src/api.rs`), and the
streamed download (`download_file` in `src/api.rs` and its caller
`download_file` in `src/lib.rs`).

Strings are embedded as `List Char`; file content as `List Nat` (bytes).
The platform client is embedded as a scripted collaborator: network
calls either appear in an emitted call trace or consume entries of a
script supplied as input.
-/

namespace Dxrs

/-- Characters accepted by the regex class `[A-Za-z0-9]` (ASCII only,
the default of the Rust regex crate). -/
def isAlnumAscii (c : Char) : Bool := c.isAlpha || c.isDigit

/-- The two fields of the Rust `DxEnvironment` (src/dxenv.rs) read by the
behaviors modelled here; the remaining fields (host, port, credentials,
project name) are passed through to the transport layer and never
inspected by these functions. -/
structure DxEnvironment where
  project_context_id : List Char
  cli_wd : List Char
deriving Repr, DecidableEq

/-- `DxPath` from src/lib.rs: the result of `resolve_path`. -/
structure DxPath where
  path : List Char
  project_id : List Char
deriving Repr, DecidableEq

/-- `ProjectPath` from src/lib.rs: the result of `parse_project_path`. -/
structure ProjectPath where
  project_id : List Char
  path : List Char
deriving Repr, DecidableEq

/-- The anchored match of `project-` followed by exactly 24 alphanumeric
characters at the start of `s` — group 1 of the regex `project_re` in
`resolve_path` and of the regex in `parse_project_path`. Returns the
matched identifier together with the remainder of the input. -/
def matchProjectId (s : List Char) : Option (List Char × List Char) :=
  if s.take 8 = "project-".toList ∧ 32 ≤ s.length
      ∧ ((s.drop 8).take 24).all isAlnumAscii = true then
    some (s.take 32, s.drop 32)
  else none

/-- The text matched by a greedy `.*` starting at the head of `s`: the
longest prefix of `s` containing no newline (the Rust regex `.` does not
match `\n`, and none of the patterns involved are end-anchored here). -/
def dotStar (s : List Char) : List Char := s.takeWhile (fun c => c != '\n')

/-- One optional leading colon, the `:?` appearing in both path regexes. -/
def stripColon (s : List Char) : List Char :=
  match s with
  | ':' :: t => t
  | _ => s

/-- The step `^:?(.+)?` of `resolve_path`: strip one leading colon; the
group `(.+)?` then captures the longest nonempty newline-free prefix of
what remains, and an absent capture (empty remainder, or a remainder
starting with a newline) falls back to the working directory `cli_wd`. -/
def pathReCapture (cliWd s : List Char) : List Char :=
  match dotStar (stripColon s) with
  | [] => cliWd
  | c :: t => c :: t

/-- The fully anchored regex `file_re` of `resolve_path`: `file-`
followed by exactly 24 alphanumeric characters and nothing else. -/
def isFileId (s : List Char) : Bool :=
  decide (s.take 5 = "file-".toList ∧ s.length = 29
    ∧ (s.drop 5).all isAlnumAscii = true)

/-- Rust `Path::is_relative` on Unix: the path does not begin with `/`. -/
def isRelative (s : List Char) : Bool :=
  match s with
  | '/' :: _ => false
  | _ => true

/-- Rust `Path::join` restricted to Unix path strings: an absolute right
operand replaces the left; otherwise the right operand is appended,
inserting a `/` separator unless the left is empty or already ends in
`/`. -/
def joinPath (a b : List Char) : List Char :=
  if b.head? = some '/' then b
  else if a = [] then b
  else if a.getLast? = some '/' then a ++ b
  else a ++ '/' :: b

/-- The pure core of `resolve_path` (src/lib.rs).
Step 1: `project_re` = `^(project-[A-Za-z0-9]` 24 times `)(:(.*))?` —
when the input starts with a project identifier, the identifier becomes
the project id and the path becomes capture 3 (the newline-free text
after a following `:`; the empty string when no `:` follows).
Step 2: `path_re` = `^:?(.+)?` with fallback to `cli_wd`.
Step 3: a path that is not a bare file identifier and is relative is
joined under `cli_wd`. -/
def resolvePathPure (dx_env : DxEnvironment) (path : List Char) : DxPath :=
  let step1 : List Char × List Char :=
    match matchProjectId path with
    | some (pid, rest) =>
        (pid,
         match rest with
         | ':' :: t => dotStar t
         | _ => [])
    | none => (dx_env.project_context_id, path)
  let path2 := pathReCapture dx_env.cli_wd step1.2
  let path3 :=
    if isFileId path2 then path2
    else if isRelative path2 then joinPath dx_env.cli_wd path2
    else path2
  { path := path3, project_id := step1.1 }

/-- `resolve_path` (src/lib.rs) returns `Result<DxPath>` but every
control path ends in `Ok`; the error type is embedded as `String`. -/
def resolve_path (dx_env : DxEnvironment) (path : List Char) :
    Except String DxPath :=
  Except.ok (resolvePathPure dx_env path)

/-- `parse_project_path` (src/lib.rs): the destination (defaulting to
the working directory) is parsed with the fully anchored regex
`^(project-[A-Za-z0-9]` 24 times `)?:?(.*)$`. Because `.` does not match
`\n` and `$` anchors at the end of the haystack, the regex fails to
match exactly when the destination contains a newline; the code then
falls back to the unparsed destination with the ambient project id.
Finally a leading `/` is added when missing. -/
def parse_project_path (dx_env : DxEnvironment)
    (destination : Option (List Char)) : ProjectPath :=
  let d := destination.getD dx_env.cli_wd
  let step : List Char × List Char :=
    if d.contains '\n' then (dx_env.project_context_id, d)
    else
      match matchProjectId d with
      | some (pid, rest) => (pid, stripColon rest)
      | none => (dx_env.project_context_id, stripColon d)
  let path1 := if step.2.head? = some '/' then step.2 else '/' :: step.2
  { project_id := step.1, path := path1 }

/-- A well-formed project identifier: `project-` followed by a
24-character alphanumeric tail `l`. -/
def projectIdStr (l : List Char) : List Char := "project-".toList ++ l

/-! ## Chunked upload pipeline (`upload_local_file`, src/lib.rs) -/

/-- `MD5_READ_CHUNK_SIZE` (src/lib.rs): 4 MiB. -/
def MD5_READ_CHUNK_SIZE : Nat := 1024 * 1024 * 4

/-- The network calls emitted by `upload_local_file`, in order:
`api::file_new` (create the writable object), per part `api::file_upload`
(request a write target for `(index, size)`; the md5 digest of the part
bytes is also sent but never inspected by any property here) and
`api::file_upload_part` (transmit the bytes), and `api::file_close`. -/
inductive ApiCall where
  | fileNew
  | fileUpload (index : Nat) (size : Nat)
  | fileUploadPart (index : Nat) (bytes : List Nat)
  | fileClose
deriving Repr, DecidableEq

/-- The only local failure of `upload_local_file` before any network
call: `bail!` on a zero-length source (spec error kind `EmptySource`). -/
inductive UploadError where
  | emptySource
deriving Repr, DecidableEq

/-- The read loop of `upload_local_file`. The Rust code allocates
`buffer = vec![0; MD5_READ_CHUNK_SIZE]` (length = 4 MiB) and each
iteration does `fh.read(&mut buffer)` — which reads
`min(buffer.len(), bytes remaining)` bytes — then, after transmitting
the part, calls `buffer.clear()`, which sets the length of the vector to 0.
The state `bufLen` is the current length of the buffer: 4 MiB on entry, 0 on
every later iteration, so every read after the first returns 0 bytes and
the loop exits. `offset` is the file position, `index` the 1-based part
index of the `for index in 1..` loop. -/
def uploadLoop (content : List Nat) (bufLen offset index : Nat) :
    List ApiCall :=
  if h : min bufLen (content.length - offset) = 0 then []
  else
    ApiCall.fileUpload index (min bufLen (content.length - offset)) ::
    ApiCall.fileUploadPart index
        ((content.drop offset).take (min bufLen (content.length - offset))) ::
    uploadLoop content 0 (offset + min bufLen (content.length - offset))
        (index + 1)
termination_by bufLen
decreasing_by
  rw [Nat.min_def] at h
  split at h <;> omega

/-- `upload_local_file` (src/lib.rs), over the content of the local
file, returning the emitted network-call trace and the error outcome.
The zero-length check (`fs::metadata` + `bail!`) runs before any network
call; otherwise the object is created (`file_new`), the read loop runs,
and `file_close` is issued. The destination-derived metadata of the
`file_new` call (basename, folder, random nonce) is carried opaquely by
the platform and not modelled. -/
def upload_local_file (content : List Nat) :
    List ApiCall × Option UploadError :=
  if content.length = 0 then ([], some UploadError.emptySource)
  else
    (ApiCall.fileNew ::
       (uploadLoop content MD5_READ_CHUNK_SIZE 0 1 ++ [ApiCall.fileClose]),
     none)

/-- The parts transmitted in a call trace, as `(index, bytes)` pairs in
order of transmission. -/
def transmittedParts (calls : List ApiCall) : List (Nat × List Nat) :=
  calls.filterMap fun c =>
    match c with
    | ApiCall.fileUploadPart i b => some (i, b)
    | _ => none

/-! ## Paginated search (`find_data`, src/api.rs) -/

/-- One scripted platform response to a `findDataObjects` page request:
a success page with results and an optional continuation cursor, or a
non-success outcome (transport error or non-OK status). -/
inductive PageResponse where
  | ok (results : List Nat) (next : Option Nat)
  | err
deriving Repr, DecidableEq

/-- Search failure kinds: `transport` for a failed `send()` (modelled as
an exhausted script), `remoteRejected` for a structured platform error. -/
inductive FindError where
  | transport
  | remoteRejected
deriving Repr, DecidableEq

/-- The request loop of `find_data`: each iteration posts the options
(whose `starting` field holds the cursor of the last page), appends the
returned results when non-empty, stores `response.next` into
`options.starting` and loops when it is present, and breaks when it is
absent. `reqs` records the cursor sent with each issued request. -/
def findDataLoop : List PageResponse → Option Nat → List Nat →
    List (Option Nat) → Except FindError (List Nat × List (Option Nat))
  | [], _, _, _ => Except.error FindError.transport
  | PageResponse.err :: _, _, _, _ => Except.error FindError.remoteRejected
  | PageResponse.ok rs next :: rest, starting, acc, reqs =>
    let acc2 := if rs.isEmpty then acc else acc ++ rs
    match next with
    | some k => findDataLoop rest (some k) acc2 (reqs ++ [starting])
    | none => Except.ok (acc2, reqs ++ [starting])

/-- `find_data` (src/api.rs) against a scripted platform client:
returns the accumulated results and the list of issued page requests
(identified by the cursor each carried). -/
def find_data (script : List PageResponse) (starting : Option Nat) :
    Except FindError (List Nat × List (Option Nat)) :=
  findDataLoop script starting [] []

/-! ## Streamed download (`download_file`, src/api.rs) -/

/-- One item of the scripted byte stream returned by the transport:
a delivered chunk, or a mid-stream transport failure. -/
inductive StreamItem where
  | chunk (bytes : List Nat)
  | fail
deriving Repr, DecidableEq

/-- Failure kinds of the streamed download: missing `Content-Length`
(fail-fast before any byte is read), a mid-stream transport failure, and
a non-OK response status (structured platform rejection). -/
inductive DlError where
  | noContentLength
  | transportFailure
  | remoteRejected
deriving Repr, DecidableEq

/-- The scripted transport response consumed by `download_file`
(src/api.rs): the `Content-Length` of the response, its status, and the
byte-chunk stream. -/
structure DownloadScript where
  contentLength : Option Nat
  statusOk : Bool
  stream : List StreamItem
deriving Repr, DecidableEq

/-- The `while let Some(item) = stream.next()` loop of `download_file`
(src/api.rs): each delivered chunk is appended to the sink with
`write_all`; the first failed item aborts with the transport error
(`anyhow!("Error while downloading file")`), leaving the sink as
written so far. -/
def dlLoop : List StreamItem → List Nat → List Nat × Option DlError
  | [], sink => (sink, none)
  | StreamItem.chunk b :: rest, sink => dlLoop rest (sink ++ b)
  | StreamItem.fail :: _, sink => (sink, some DlError.transportFailure)

/-- `download_file` (src/api.rs), over a scripted transport response:
first the `Content-Length` check (`ok_or` — fails before any byte is
written), then the status match (non-OK is surfaced as a platform
rejection with nothing written), then the streaming loop. Returns the
final sink content and the error outcome. -/
def api_download_file (script : DownloadScript) :
    List Nat × Option DlError :=
  match script.contentLength with
  | none => ([], some DlError.noContentLength)
  | some _ =>
    if script.statusOk then dlLoop script.stream []
    else ([], some DlError.remoteRejected)

/-! ## Download command (`download_file`, src/lib.rs) -/

/-- The externally visible steps of `download_file` (src/lib.rs), in
program order: `fs::create_dir_all` on a missing output directory,
`api::describe_file`, `api::download` (the download-descriptor request),
`open_outfile` (which runs `File::create` on any path other than `-`,
creating or truncating it), and the byte streaming of
`api::download_file`. -/
inductive DlCall where
  | createDirAll
  | describeFile
  | requestDownload
  | openOutfile (path : List Char)
  | streamBytes
deriving Repr, DecidableEq

/-- Error outcomes of `download_file` (src/lib.rs) up to the overwrite
guard: a failed describe call, or `bail!("Use force to overwrite ...")`. -/
inductive CmdError where
  | describeFailed
  | forceRequired
deriving Repr, DecidableEq

/-- The local destination path computed by `download_file` (src/lib.rs):
an explicit `--output` of `-` stands for stdout; any other explicit
output is joined under the output directory; with no explicit output the
described remote name (or, absent that, the file id) is joined under the
output directory. -/
def dlLocalPath (descName : Option (List Char))
    (file_id outdir : List Char) (output : Option (List Char)) :
    List Char :=
  match output with
  | some v => if v = "-".toList then v else joinPath outdir v
  | none => joinPath outdir (descName.getD file_id)

/-- `download_file` (src/lib.rs) with the filesystem and the describe
call abstracted: `outdirIsDir` is the `outdir.is_dir()` test,
`fileExists` the `Path::exists` test, `describeResult` the outcome of
`api::describe_file` (carrying the optional remote name). Returns the
emitted call trace and the error outcome; the steps after the overwrite
guard are recorded in order with a successful outcome. -/
def download_file (outdirIsDir : Bool) (fileExists : List Char → Bool)
    (describeResult : Except Unit (Option (List Char)))
    (file_id outdir : List Char) (output : Option (List Char))
    (force : Bool) : List DlCall × Option CmdError :=
  let pre := if outdirIsDir then [] else [DlCall.createDirAll]
  match describeResult with
  | Except.error _ =>
      (pre ++ [DlCall.describeFile], some CmdError.describeFailed)
  | Except.ok name =>
    let local_path := dlLocalPath name file_id outdir output
    if local_path ≠ "-".toList ∧ fileExists local_path = true
        ∧ force = false then
      (pre ++ [DlCall.describeFile], some CmdError.forceRequired)
    else
      (pre ++ [DlCall.describeFile, DlCall.requestDownload,
               DlCall.openOutfile local_path, DlCall.streamBytes], none)

/-! ## Helper lemmas -/

theorem isAlnumAscii_ne_newline (c : Char) (h : isAlnumAscii c = true) :
    c ≠ '\n' := by
  intro hc
  subst hc
  exact absurd h (by decide)

theorem dotStar_eq_self (s : List Char) (h : ∀ c ∈ s, c ≠ '\n') :
    dotStar s = s := by
  apply List.takeWhile_eq_self_iff.mpr
  intro c hc
  simpa [bne_iff_ne] using h c hc

theorem stripColon_eq_self {s : List Char} (h : s.head? ≠ some ':') :
    stripColon s = s := by
  cases s with
  | nil => rfl
  | cons a t =>
      by_cases ha : a = ':'
      · subst ha
        simp at h
      · unfold stripColon
        split
        · next t2 heq =>
            injection heq with h1 h2
            exact absurd h1 ha
        · rfl

theorem pathReCapture_eq_self (w s : List Char) (hne : s ≠ [])
    (hh : s.head? ≠ some ':') (hnl : ∀ c ∈ s, c ≠ '\n') :
    pathReCapture w s = s := by
  unfold pathReCapture
  rw [stripColon_eq_self hh, dotStar_eq_self s hnl]
  cases s with
  | nil => exact absurd rfl hne
  | cons a t => rfl

theorem pathReCapture_ne_nil (w s : List Char) (hw : w ≠ []) :
    pathReCapture w s ≠ [] := by
  unfold pathReCapture
  split
  · exact hw
  · simp

theorem joinPath_ne_nil (w b : List Char) (hw : w ≠ []) :
    joinPath w b ≠ [] := by
  unfold joinPath
  by_cases h1 : b.head? = some '/'
  · rw [if_pos h1]
    intro hb
    rw [hb] at h1
    simp at h1
  · rw [if_neg h1, if_neg hw]
    by_cases h3 : w.getLast? = some '/'
    · rw [if_pos h3]
      simp [hw]
    · rw [if_neg h3]
      simp

theorem isFileId_false_of_head_slash {s : List Char}
    (h : s.head? = some '/') : isFileId s = false := by
  cases s with
  | nil => simp at h
  | cons a t =>
      simp only [List.head?_cons, Option.some_inj] at h
      subst h
      apply decide_eq_false
      intro hc
      obtain ⟨h5, -, -⟩ := hc
      rw [List.take_succ_cons] at h5
      exact absurd (List.head_eq_of_cons_eq h5) (by decide)

theorem isRelative_false_of_head_slash {s : List Char}
    (h : s.head? = some '/') : isRelative s = false := by
  cases s with
  | nil => simp at h
  | cons a t =>
      simp only [List.head?_cons, Option.some_inj] at h
      subst h
      rfl

/-- The final branch of `resolve_path` leaves an absolute working
directory unchanged. -/
theorem resolveBranch_wd (w : List Char) (hw : w.head? = some '/') :
    (if isFileId w then w
     else if isRelative w then joinPath w w
     else w) = w := by
  rw [isFileId_false_of_head_slash hw, isRelative_false_of_head_slash hw]
  simp

/-- Evaluation of `resolve_path` when the input carries no project
identifier: the project id defaults and the path goes through the
colon-strip, fallback and join steps. -/
theorem resolvePathPure_eval_none (env : DxEnvironment) (input : List Char)
    (hm : matchProjectId input = none) :
    resolvePathPure env input =
      { path :=
          if isFileId (pathReCapture env.cli_wd input) then
            pathReCapture env.cli_wd input
          else if isRelative (pathReCapture env.cli_wd input) then
            joinPath env.cli_wd (pathReCapture env.cli_wd input)
          else pathReCapture env.cli_wd input,
        project_id := env.project_context_id } := by
  unfold resolvePathPure
  rw [hm]

/-! ## Claim theorems -/

/-- C2: uploading a zero-length local source fails with the
`EmptySource` error and emits no network call at all: no object
creation, no part-target request, no part transmission, no close. -/
theorem upload_empty_source_no_calls :
    upload_local_file [] = ([], some UploadError.emptySource) := rfl

theorem uploadLoop_zero_buffer (content : List Nat) (offset index : Nat) :
    uploadLoop content 0 offset index = [] := by
  unfold uploadLoop
  simp

/-- C1 (the claim fails on the code): for a source one byte longer than
one 4 MiB chunk, the upload transmits exactly one part holding only the
first 4 MiB, so the concatenation of the transmitted parts is not the
source content. Cause: `buffer.clear()` sets the read buffer length to
0, so every read after the first returns 0 bytes and the read loop
exits after one part. -/
theorem upload_drops_bytes_beyond_first_chunk :
    transmittedParts
        (upload_local_file (List.replicate (MD5_READ_CHUNK_SIZE + 1) 0)).1
      = [(1, List.replicate MD5_READ_CHUNK_SIZE 0)]
    ∧ ((transmittedParts
          (upload_local_file
            (List.replicate (MD5_READ_CHUNK_SIZE + 1) 0)).1).map
        Prod.snd).flatten
      ≠ List.replicate (MD5_READ_CHUNK_SIZE + 1) (0 : Nat) := by
  have hlen : (List.replicate (MD5_READ_CHUNK_SIZE + 1) (0 : Nat)).length
      = MD5_READ_CHUNK_SIZE + 1 := List.length_replicate _ _
  have hloop : uploadLoop (List.replicate (MD5_READ_CHUNK_SIZE + 1) 0)
      MD5_READ_CHUNK_SIZE 0 1
      = [ApiCall.fileUpload 1 MD5_READ_CHUNK_SIZE,
         ApiCall.fileUploadPart 1 (List.replicate MD5_READ_CHUNK_SIZE 0)] := by
    unfold uploadLoop
    have hmin : min MD5_READ_CHUNK_SIZE
        ((List.replicate (MD5_READ_CHUNK_SIZE + 1) (0 : Nat)).length - 0)
        = MD5_READ_CHUNK_SIZE := by
      rw [hlen]
      omega
    rw [dif_neg (by rw [hmin]; intro h; exact absurd h (by decide))]
    rw [uploadLoop_zero_buffer, hmin]
    simp [List.take_replicate]
  have hupl : upload_local_file (List.replicate (MD5_READ_CHUNK_SIZE + 1) 0)
      = (ApiCall.fileNew ::
          ([ApiCall.fileUpload 1 MD5_READ_CHUNK_SIZE,
            ApiCall.fileUploadPart 1 (List.replicate MD5_READ_CHUNK_SIZE 0)]
            ++ [ApiCall.fileClose]), none) := by
    unfold upload_local_file
    rw [if_neg (by rw [hlen]; omega), hloop]
  constructor
  · rw [hupl]
    rfl
  · rw [hupl]
    intro h
    have hl := congrArg List.length h
    simp [transmittedParts] at hl


/-- C8: against a scripted platform client answering with pages
`[a, b]` (cursor present), `[c]` (cursor present), and an empty page
with no continuation cursor, `find_data` returns exactly `[a, b, c]` —
the concatenation of the pages in page order, no re-sorting — and
issues exactly 3 page requests (the first with the initial cursor, the
next two with the cursors of the previous pages) before terminating. -/
theorem find_data_concatenates_pages (a b c : Nat) (k1 k2 : Nat)
    (s0 : Option Nat) :
    find_data [PageResponse.ok [a, b] (some k1), PageResponse.ok [c] (some k2),
               PageResponse.ok [] none] s0
      = Except.ok ([a, b, c], [s0, some k1, some k2])
    ∧ ([s0, some k1, some k2] : List (Option Nat)).length = 3 :=
  ⟨rfl, rfl⟩

theorem dlLoop_delivered_then_fail (delivered : List (List Nat))
    (rest : List StreamItem) (sink : List Nat) :
    dlLoop (delivered.map StreamItem.chunk ++ StreamItem.fail :: rest) sink
      = (sink ++ delivered.flatten, some DlError.transportFailure) := by
  induction delivered generalizing sink with
  | nil => simp [dlLoop]
  | cons bchunk bs ih =>
      simp only [List.map_cons, List.cons_append, dlLoop, List.append_eq,
        ih, List.flatten_cons, List.append_assoc]

/-- C9: when the transport stream delivers some chunks and then fails,
the streamed download writes exactly the delivered bytes to the sink,
in order and append-only, and returns the transport-failure error; for
any continuation of the content beyond the failure point, what was
written is precisely the first K bytes of the content, where K is the
number of bytes delivered before the failure. -/
theorem download_failure_writes_delivered_only (n : Nat)
    (delivered : List (List Nat)) (rest : List StreamItem)
    (undelivered : List Nat) :
    api_download_file
        { contentLength := some n, statusOk := true,
          stream := delivered.map StreamItem.chunk
            ++ StreamItem.fail :: rest }
      = (delivered.flatten, some DlError.transportFailure)
    ∧ delivered.flatten
        = (delivered.flatten ++ undelivered).take delivered.flatten.length := by
  constructor
  · unfold api_download_file
    simp only [if_pos rfl]
    simpa using dlLoop_delivered_then_fail delivered rest []
  · rw [List.take_left]

/-- C10: when the computed local destination of the download command is
an existing file, is not `-`, and the force flag is unset, the command
fails with the overwrite guard after the describe call: the
download-descriptor request is never made, the output file is never
created, truncated, or written. -/
theorem download_existing_file_no_force_guard (outdirIsDir : Bool)
    (fileExists : List Char → Bool) (name : Option (List Char))
    (file_id outdir : List Char) (output : Option (List Char))
    (h1 : dlLocalPath name file_id outdir output ≠ "-".toList)
    (h2 : fileExists (dlLocalPath name file_id outdir output) = true) :
    download_file outdirIsDir fileExists (Except.ok name) file_id outdir
        output false
      = ((if outdirIsDir then [] else [DlCall.createDirAll])
          ++ [DlCall.describeFile], some CmdError.forceRequired)
    ∧ DlCall.requestDownload
        ∉ (download_file outdirIsDir fileExists (Except.ok name) file_id
            outdir output false).1
    ∧ (∀ p, DlCall.openOutfile p
        ∉ (download_file outdirIsDir fileExists (Except.ok name) file_id
            outdir output false).1)
    ∧ DlCall.streamBytes
        ∉ (download_file outdirIsDir fileExists (Except.ok name) file_id
            outdir output false).1 := by
  have heq : download_file outdirIsDir fileExists (Except.ok name) file_id
      outdir output false
      = ((if outdirIsDir then [] else [DlCall.createDirAll])
          ++ [DlCall.describeFile], some CmdError.forceRequired) := by
    unfold download_file
    dsimp only
    rw [if_pos ⟨h1, h2, rfl⟩]
  refine ⟨heq, ?_, ?_, ?_⟩
  · rw [heq]
    cases outdirIsDir <;> simp
  · intro p
    rw [heq]
    cases outdirIsDir <;> simp
  · rw [heq]
    cases outdirIsDir <;> simp

/-- Witness for C10 at a concrete instance: output directory exists,
every path exists, no explicit output name, remote name absent (the
file id is used), force unset. -/
theorem download_existing_file_no_force_guard_witness :
    download_file true (fun _ => true) (Except.ok none)
        "file-a".toList "/dest".toList none false
      = ([DlCall.describeFile], some CmdError.forceRequired) :=
  (download_existing_file_no_force_guard true (fun _ => true) none
    "file-a".toList "/dest".toList none (by decide) rfl).1

theorem matchProjectId_projectIdStr (l r : List Char) (h24 : l.length = 24)
    (hal : l.all isAlnumAscii = true) :
    matchProjectId (projectIdStr l ++ r) = some (projectIdStr l, r) := by
  have hlen2 : (projectIdStr l).length = 32 := by
    simp [projectIdStr, List.length_append, h24]
  have hassoc : projectIdStr l ++ r = "project-".toList ++ (l ++ r) := by
    simp [projectIdStr, List.append_assoc]
  have htake8 : (projectIdStr l ++ r).take 8 = "project-".toList := by
    rw [hassoc, show (8 : Nat) = ("project-".toList : List Char).length from rfl]
    exact List.take_left _ _
  have hdrop8 : (projectIdStr l ++ r).drop 8 = l ++ r := by
    rw [hassoc, show (8 : Nat) = ("project-".toList : List Char).length from rfl]
    exact List.drop_left _ _
  have h32 : 32 ≤ (projectIdStr l ++ r).length := by
    simp [projectIdStr, List.length_append, h24]
  unfold matchProjectId
  have hcond : (projectIdStr l ++ r).take 8 = "project-".toList
      ∧ 32 ≤ (projectIdStr l ++ r).length
      ∧ (((projectIdStr l ++ r).drop 8).take 24).all isAlnumAscii = true := by
    refine ⟨htake8, h32, ?_⟩
    rw [hdrop8, show (24 : Nat) = l.length from h24.symm, List.take_left]
    exact hal
  rw [if_pos hcond, show (32 : Nat) = (projectIdStr l).length from hlen2.symm,
    List.take_left, List.drop_left]

/-- C3: a bare file identifier resolves to itself: it is never joined
with the working path, whatever the default container and working path
are. -/
theorem resolve_bare_file_id_is_absolute (env : DxEnvironment)
    (s : List Char) (h : isFileId s = true) :
    resolvePathPure env s
      = { path := s, project_id := env.project_context_id } := by
  obtain ⟨h5, h29, hal⟩ := of_decide_eq_true h
  have hsplit : s = "file-".toList ++ s.drop 5 := by
    conv_lhs => rw [← List.take_append_drop 5 s]
    rw [h5]
  have hal2 : ∀ c ∈ s.drop 5, isAlnumAscii c = true := List.all_eq_true.mp hal
  have hnl : ∀ c ∈ s, c ≠ '\n' := by
    intro c hc
    rw [hsplit] at hc
    rcases List.mem_append.mp hc with h1 | h2
    · intro he
      subst he
      exact absurd h1 (by decide)
    · exact isAlnumAscii_ne_newline c (hal2 c h2)
  have hhead : s.head? = some 'f' := by
    rw [hsplit]
    rfl
  have hhead2 : s.head? ≠ some ':' := by
    rw [hhead]
    decide
  have hne : s ≠ [] := by
    intro he
    rw [he] at h29
    simp at h29
  have hm : matchProjectId s = none := by
    unfold matchProjectId
    rw [if_neg]
    intro hc
    obtain ⟨h8, -, -⟩ := hc
    have h55 := congrArg (List.take 5) h8
    rw [List.take_take] at h55
    norm_num at h55
    rw [h5] at h55
    exact absurd h55 (by decide)
  rw [resolvePathPure_eval_none env s hm,
    pathReCapture_eq_self _ s hne hhead2 hnl]
  simp [h]

/-- Witness for C3 at the file identifier from the repository test
suite, with an unrelated default container and working path. -/
theorem resolve_bare_file_id_is_absolute_witness :
    resolvePathPure
        ⟨"project-BBBBBBBBBBBBBBBBBBBBBBBB".toList, "/foo/bar".toList⟩
        "file-Gbxj0k006jzv14J9J4Yp4vgG".toList
      = { path := "file-Gbxj0k006jzv14J9J4Yp4vgG".toList,
          project_id := "project-BBBBBBBBBBBBBBBBBBBBBBBB".toList } :=
  resolve_bare_file_id_is_absolute
    ⟨"project-BBBBBBBBBBBBBBBBBBBBBBBB".toList, "/foo/bar".toList⟩
    "file-Gbxj0k006jzv14J9J4Yp4vgG".toList (by decide)

/-- C4: an input with no container-identifier prefix resolves to the
default container; and the concrete scenario from the spec — a
`project-AAA...` prefix overrides a different default container and the
prefixed absolute path is kept, not joined with the working path. -/
theorem resolve_container_default_and_override :
    (∀ (env : DxEnvironment) (input : List Char),
        matchProjectId input = none →
        (resolvePathPure env input).project_id = env.project_context_id)
    ∧ resolvePathPure
        { project_context_id := "project-BBBBBBBBBBBBBBBBBBBBBBBB".toList,
          cli_wd := "/other".toList }
        "project-AAAAAAAAAAAAAAAAAAAAAAAA:/x/y.txt".toList
      = { path := "/x/y.txt".toList,
          project_id := "project-AAAAAAAAAAAAAAAAAAAAAAAA".toList } := by
  constructor
  · intro env input hm
    rw [resolvePathPure_eval_none env input hm]
  · decide

/-- Witness for C4 at a concrete prefix-free input. -/
theorem resolve_container_default_and_override_witness :
    (resolvePathPure
        ⟨"project-BBBBBBBBBBBBBBBBBBBBBBBB".toList, "/other".toList⟩
        "x.txt".toList).project_id
      = "project-BBBBBBBBBBBBBBBBBBBBBBBB".toList :=
  resolve_container_default_and_override.1
    ⟨"project-BBBBBBBBBBBBBBBBBBBBBBBB".toList, "/other".toList⟩
    "x.txt".toList (by decide)

/-- C5 fails on the code as stated: the input `:x` is non-absolute and
is not a bare identifier, yet it does not resolve to the path-join of
the working path and the input — `resolve_path` first strips the
leading colon, so the resolved path is `/foo/bar/x` while the join is
`/foo/bar/:x`. -/
theorem resolve_join_claim_counterexample :
    isRelative ":x".toList = true
    ∧ isFileId ":x".toList = false
    ∧ (resolvePathPure
        ⟨"project-BBBBBBBBBBBBBBBBBBBBBBBB".toList, "/foo/bar".toList⟩
        ":x".toList).path = "/foo/bar/x".toList
    ∧ joinPath "/foo/bar".toList ":x".toList = "/foo/bar/:x".toList
    ∧ "/foo/bar/x".toList ≠ "/foo/bar/:x".toList := by
  refine ⟨by decide, by decide, by decide, by decide, by decide⟩

/-- C5 amended: for a non-empty, colon-free-headed, newline-free input
with no container prefix that is neither absolute nor a bare file
identifier, the resolved path is the path-join of the working path and
the input; and for an absolute working path, the inputs `` and `:` both
resolve to exactly the working path. -/
theorem resolve_join_amended :
    (∀ (env : DxEnvironment) (input : List Char),
        input ≠ [] → input.head? ≠ some ':' → (∀ c ∈ input, c ≠ '\n') →
        matchProjectId input = none → isFileId input = false →
        isRelative input = true →
        (resolvePathPure env input).path = joinPath env.cli_wd input)
    ∧ (∀ env : DxEnvironment, env.cli_wd.head? = some '/' →
        (resolvePathPure env []).path = env.cli_wd
        ∧ (resolvePathPure env [':']).path = env.cli_wd) := by
  constructor
  · intro env input hne hh hnl hm hfid hrel
    rw [resolvePathPure_eval_none env input hm,
      pathReCapture_eq_self _ input hne hh hnl]
    simp [hfid, hrel]
  · intro env hwd
    constructor
    · rw [resolvePathPure_eval_none env [] (by decide),
        show pathReCapture env.cli_wd [] = env.cli_wd from rfl]
      exact resolveBranch_wd env.cli_wd hwd
    · rw [resolvePathPure_eval_none env [':'] (by decide),
        show pathReCapture env.cli_wd [':'] = env.cli_wd from rfl]
      exact resolveBranch_wd env.cli_wd hwd

/-- Witness for the amended C5 at concrete inputs `x`, `` and `:`. -/
theorem resolve_join_amended_witness :
    (resolvePathPure
        ⟨"project-BBBBBBBBBBBBBBBBBBBBBBBB".toList, "/foo/bar".toList⟩
        "x".toList).path = joinPath "/foo/bar".toList "x".toList
    ∧ (resolvePathPure
        ⟨"project-BBBBBBBBBBBBBBBBBBBBBBBB".toList, "/foo/bar".toList⟩
        []).path = "/foo/bar".toList
    ∧ (resolvePathPure
        ⟨"project-BBBBBBBBBBBBBBBBBBBBBBBB".toList, "/foo/bar".toList⟩
        [':']).path = "/foo/bar".toList :=
  ⟨resolve_join_amended.1
      ⟨"project-BBBBBBBBBBBBBBBBBBBBBBBB".toList, "/foo/bar".toList⟩
      "x".toList (by decide) (by decide) (by decide) (by decide) (by decide)
      (by decide),
   (resolve_join_amended.2
      ⟨"project-BBBBBBBBBBBBBBBBBBBBBBBB".toList, "/foo/bar".toList⟩
      (by decide)).1,
   (resolve_join_amended.2
      ⟨"project-BBBBBBBBBBBBBBBBBBBBBBBB".toList, "/foo/bar".toList⟩
      (by decide)).2⟩

/-- C6: on an input that is a project identifier followed by `:` with
empty remainder, the two path-parsing operations diverge exactly as
documented: `resolve_path` falls back to the (absolute) working path,
while `parse_project_path` produces `/`. -/
theorem resolve_vs_parse_empty_remainder (env : DxEnvironment)
    (l : List Char) (h24 : l.length = 24)
    (hal : l.all isAlnumAscii = true)
    (hwd : env.cli_wd.head? = some '/') :
    (resolvePathPure env (projectIdStr l ++ [':'])).path = env.cli_wd
    ∧ (parse_project_path env (some (projectIdStr l ++ [':']))).path
        = "/".toList := by
  have hm := matchProjectId_projectIdStr l [':'] h24 hal
  have hal2 : ∀ c ∈ l, isAlnumAscii c = true := List.all_eq_true.mp hal
  constructor
  · unfold resolvePathPure
    rw [hm]
    exact resolveBranch_wd env.cli_wd hwd
  · have hmem : '\n' ∉ projectIdStr l ++ [':'] := by
      intro hmem
      rcases List.mem_append.mp hmem with h1 | h2
      · rcases List.mem_append.mp h1 with h3 | h4
        · exact absurd h3 (by decide)
        · exact absurd rfl (isAlnumAscii_ne_newline '\n' (hal2 _ h4))
      · simp at h2
    have hnone : (projectIdStr l ++ [':']).contains '\n' = false := by
      simpa using hmem
    unfold parse_project_path
    rw [Option.getD_some]
    dsimp only
    rw [hnone, hm]
    rfl

/-- Witness for C6 at the concrete input
`project-AAAAAAAAAAAAAAAAAAAAAAAA:` with working path `/foo/bar`. -/
theorem resolve_vs_parse_empty_remainder_witness :
    (resolvePathPure
        ⟨"project-BBBBBBBBBBBBBBBBBBBBBBBB".toList, "/foo/bar".toList⟩
        (projectIdStr "AAAAAAAAAAAAAAAAAAAAAAAA".toList ++ [':'])).path
      = "/foo/bar".toList
    ∧ (parse_project_path
        ⟨"project-BBBBBBBBBBBBBBBBBBBBBBBB".toList, "/foo/bar".toList⟩
        (some (projectIdStr "AAAAAAAAAAAAAAAAAAAAAAAA".toList
          ++ [':']))).path = "/".toList :=
  resolve_vs_parse_empty_remainder
    ⟨"project-BBBBBBBBBBBBBBBBBBBBBBBB".toList, "/foo/bar".toList⟩
    "AAAAAAAAAAAAAAAAAAAAAAAA".toList (by decide) (by decide) (by decide)

/-- C7 fails on the code as stated: an empty input does not resolve to
`/` — it resolves to the working path (here `/foo/bar`). -/
theorem resolve_empty_input_not_root :
    (resolvePathPure
        ⟨"project-BBBBBBBBBBBBBBBBBBBBBBBB".toList, "/foo/bar".toList⟩
        []).path = "/foo/bar".toList
    ∧ "/foo/bar".toList ≠ "/".toList := by
  refine ⟨by decide, by decide⟩

/-- C7 amended: resolution never fails — it returns a location for
every default container, working path and input; when the working path
is non-empty the returned path is non-empty; a root-only input `/`
resolves to `/`; and an empty input resolves to the (absolute) working
path. -/
theorem resolve_total_amended :
    (∀ (env : DxEnvironment) (input : List Char),
        ∃ p, resolve_path env input = Except.ok p)
    ∧ (∀ (env : DxEnvironment) (input : List Char),
        env.cli_wd ≠ [] → (resolvePathPure env input).path ≠ [])
    ∧ (∀ env : DxEnvironment, (resolvePathPure env ['/']).path = ['/'])
    ∧ (∀ env : DxEnvironment, env.cli_wd.head? = some '/' →
        (resolvePathPure env []).path = env.cli_wd) := by
  refine ⟨fun env input => ⟨resolvePathPure env input, rfl⟩, ?_, ?_, ?_⟩
  · intro env input hw
    unfold resolvePathPure
    dsimp only
    set p2 := pathReCapture env.cli_wd
        (match matchProjectId input with
         | some (pid, rest) =>
             (pid,
              match rest with
              | ':' :: t => dotStar t
              | _ => [])
         | none => (env.project_context_id, input)).2 with hp2
    have hp2ne : p2 ≠ [] := by
      rw [hp2]
      exact pathReCapture_ne_nil _ _ hw
    by_cases hf : isFileId p2
    · simp [hf, hp2ne]
    · by_cases hr : isRelative p2
      · simp [hf, hr, joinPath_ne_nil env.cli_wd p2 hw]
      · simp [hf, hr, hp2ne]
  · intro env
    rw [resolvePathPure_eval_none env ['/'] (by decide),
      show pathReCapture env.cli_wd ['/'] = ['/'] from rfl]
    rfl
  · intro env hwd
    rw [resolvePathPure_eval_none env [] (by decide),
      show pathReCapture env.cli_wd [] = env.cli_wd from rfl]
    exact resolveBranch_wd env.cli_wd hwd

/-- Witness for the amended C7 at concrete inputs. -/
theorem resolve_total_amended_witness :
    (∃ p, resolve_path
        ⟨"project-BBBBBBBBBBBBBBBBBBBBBBBB".toList, "/foo/bar".toList⟩
        "x".toList = Except.ok p)
    ∧ (resolvePathPure
        ⟨"project-BBBBBBBBBBBBBBBBBBBBBBBB".toList, "/foo/bar".toList⟩
        "x".toList).path ≠ []
    ∧ (resolvePathPure
        ⟨"project-BBBBBBBBBBBBBBBBBBBBBBBB".toList, "/foo/bar".toList⟩
        ['/']).path = ['/']
    ∧ (resolvePathPure
        ⟨"project-BBBBBBBBBBBBBBBBBBBBBBBB".toList, "/foo/bar".toList⟩
        []).path = "/foo/bar".toList :=
  ⟨resolve_total_amended.1
      ⟨"project-BBBBBBBBBBBBBBBBBBBBBBBB".toList, "/foo/bar".toList⟩
      "x".toList,
   resolve_total_amended.2.1
      ⟨"project-BBBBBBBBBBBBBBBBBBBBBBBB".toList, "/foo/bar".toList⟩
      "x".toList (by decide),
   resolve_total_amended.2.2.1
      ⟨"project-BBBBBBBBBBBBBBBBBBBBBBBB".toList, "/foo/bar".toList⟩,
   resolve_total_amended.2.2.2
      ⟨"project-BBBBBBBBBBBBBBBBBBBBBBBB".toList, "/foo/bar".toList⟩
      (by decide)⟩

end Dxrs
